import Mathlib

/-!
Verification of the MVP-Echo STT engine client.

This file gives a shallow embedding of the speech-to-text engine code of
the MVP-Echo repository and proves properties of it:

* `app/stt/whisper-engine.js` — the local ONNX-backed engine
  (`WhisperEngine`: `preprocessAudio`, `transcribe` guard, `getStatus`,
  `cleanup`), embedded in namespace `LocalEngine`;
* the Python-sidecar engine variant (`WhisperEngine` over a child
  process: `sendRequest`, `transcribe`, `initialize`, `cleanup`),
  embedded in namespace `PyEngine`;
* `app/main/main-simple.js` — the `processAudio` IPC handler with its
  fallback branch, embedded in namespace `MainHandler`;
* `mvp-echo-light/app/stt/whisper-remote.js` — the remote HTTP engine
  (`WhisperRemoteEngine`: `testConnection`, `configure`, `setModel`,
  `setLanguage`, language normalization), embedded in namespace
  `RemoteEngine`.

Audio samples are modelled as rationals (the structural claims proved
here — padding, truncation, aliasing, element-wise normalization — do
not depend on floating-point rounding).  Fallible operations return
`Except`; the behaviour of the external backend (the Python sidecar or
the remote HTTP endpoint) is passed in explicitly as data, so every
definition is executable.
-/

namespace LocalEngine

/-- Source: `Math.max(...Array.from(floatArray).map(Math.abs))` in
`preprocessAudio`.  For a nonempty list this is the maximum absolute
value of the samples.  (For an empty list the JS expression is
`-Infinity`; we fold with `0`, which agrees with the code on the
only use site, the strict-positivity guard `maxVal > 0`.) -/
def maxAbsVal (xs : List ℚ) : ℚ :=
  (xs.map (fun x => |x|)).foldr max 0

/-- Source: the normalization loop of `preprocessAudio`
(`whisper-engine.js` lines 211-217): when `maxVal > 0` every sample is
divided by `maxVal`; otherwise the samples are left untouched. -/
def normalizeAudio (xs : List ℚ) : List ℚ :=
  let maxVal := maxAbsVal xs
  if 0 < maxVal then xs.map (fun x => x / maxVal) else xs

/-- Source: `preprocessAudio` (`whisper-engine.js` lines 197-238).
The samples are normalized, then padded with zeros or truncated to
`targetLength = Math.min(480000, Math.max(16000, floatArray.length))`:
the code allocates a zero-filled `Float32Array(targetLength)` and
copies either the first `targetLength` normalized samples (when the
input is at least that long) or all of them (leaving the tail zero). -/
def preprocessAudio (audioData : List ℚ) : List ℚ :=
  let floatArray := normalizeAudio audioData
  let targetLength := min 480000 (max 16000 floatArray.length)
  if targetLength ≤ floatArray.length then
    floatArray.take targetLength
  else
    floatArray ++ List.replicate (targetLength - floatArray.length) 0

/-- Source: the first half of `preprocessAudio` (`whisper-engine.js`
lines 199-217), viewed from the caller of `transcribe`.  When the
caller passes a `Float32Array`, the code sets `floatArray = audioData`
— an alias, not a copy — and the normalization loop assigns
`floatArray[i] /= maxVal` in place, so the normalized samples are
written into the caller's own buffer.  When the caller passes a plain
`Array` (or other array-like), `new Float32Array(audioData)` makes a
fresh copy and the caller's buffer is untouched.  This definition
returns the contents of the caller's buffer after `preprocessAudio`
returns. -/
def preprocessCallerBuffer (isFloat32 : Bool) (audioData : List ℚ) : List ℚ :=
  if isFloat32 then normalizeAudio audioData else audioData

/-- State of the local ONNX `WhisperEngine` object: `session` is the
ONNX inference session reference (`null` ↦ `none`, a live session ↦
`some` of an opaque handle id), together with the `isInitialized` flag,
the model path, and the execution mode string. -/
structure EngineState where
  session : Option ℕ
  isInitialized : Bool
  modelPath : Option String
  executionMode : String
deriving DecidableEq

/-- Source: the `WhisperEngine` constructor (`whisper-engine.js` lines
19-24): `session = null`, `isInitialized = false`, `modelPath = null`,
`executionMode = 'cpu'`. -/
def mkEngine : EngineState :=
  { session := none, isInitialized := false, modelPath := none,
    executionMode := "cpu" }

/-- Source: `initialize` (`whisper-engine.js` lines 29-63).  Locating
the model file and creating the ONNX session are external effects;
their combined outcome is passed in as `setup` (model path and session
handle on success, the thrown message on failure).  On success the
session is stored, the execution mode is derived from the provider
list, and `isInitialized` is set; on failure `isInitialized` is set to
`false` and the error is rethrown. -/
def initializeEngine (s : EngineState) (setup : Except String (String × ℕ))
    (providers : List String) : EngineState × Except String Bool :=
  match setup with
  | .error e => ({ s with isInitialized := false }, .error e)
  | .ok (mp, sid) =>
      let mode :=
        if providers.contains "DmlExecutionProvider"
            || providers.contains "CUDAExecutionProvider" then "gpu" else "cpu"
      ({ s with modelPath := some mp, session := some sid,
                executionMode := mode, isInitialized := true }, .ok true)

/-- Result object resolved by the local `transcribe`
(`whisper-engine.js` lines 179-186). -/
structure LocalResult where
  success : Bool
  text : String
  confidence : ℚ
  engine : String
deriving DecidableEq

/-- Source: `transcribe` (`whisper-engine.js` lines 158-192).  The
guard at lines 159-161 throws
`Engine not initialized. Call initialize() first.` when
`isInitialized` is false; otherwise the audio is preprocessed and the
(mock) inference outcome — passed in here as the chosen text and
confidence, since it draws on `Math.random()` — is wrapped in the
result object. -/
def transcribe (s : EngineState) (audioData : List ℚ)
    (inferText : String) (inferConfidence : ℚ) :
    Except String LocalResult :=
  if s.isInitialized = false then
    .error "Engine not initialized. Call initialize() first."
  else
    let _processed := preprocessAudio audioData
    .ok { success := true, text := inferText, confidence := inferConfidence,
          engine := "Whisper (" ++ s.executionMode.toUpper ++ ")" }

/-- Status object returned by `getStatus` (`whisper-engine.js` lines
301-308). -/
structure Status where
  initialized : Bool
  mode : String
  sessionActive : Bool
deriving DecidableEq

/-- Source: `getStatus` (`whisper-engine.js` lines 301-308): a pure
read of the engine fields (`sessionActive: this.session !== null`). -/
def getStatus (s : EngineState) : Status :=
  { initialized := s.isInitialized, mode := s.executionMode,
    sessionActive := s.session.isSome }

/-- Source: `cleanup` (`whisper-engine.js` lines 313-324): releases the
session when one is held, sets `session = null` and
`isInitialized = false`; any error is caught and logged, never
rethrown, so the call always completes. -/
def cleanup (s : EngineState) : EngineState :=
  { s with session := none, isInitialized := false }

end LocalEngine

namespace PyEngine

/-- Events observable at the boundary between the Python-sidecar
`WhisperEngine` and its backend child process: a request line written
to the child's stdin, and the resolution (success or rejection) of the
promise returned by `sendRequest` for that request. -/
inductive Event
  | write (reqId : ℕ)
  | resolve (reqId : ℕ)
deriving DecidableEq

/-- State of the Python-sidecar `WhisperEngine` object
(constructor, sidecar variant lines 13-20): `pythonProcess` is the
child-process reference (`null` ↦ `none`, a live process ↦ `some` pid),
plus `isInitialized`, `modelSize`, `executionMode`, and the two fields
`requestQueue` and `isProcessing` that the constructor initializes and
that no other method of the class ever reads or writes. -/
structure PyState where
  pythonProcess : Option ℕ
  isInitialized : Bool
  modelSize : String
  executionMode : String
  requestQueue : List ℕ
  isProcessing : Bool
deriving DecidableEq

/-- Source: the constructor of the sidecar `WhisperEngine` (lines
13-20). -/
def mkEngine : PyState :=
  { pythonProcess := none, isInitialized := false, modelSize := "tiny",
    executionMode := "python", requestQueue := [], isProcessing := false }

/-- Errors thrown by the sidecar engine, one constructor per `throw`
site; `message` below renders the exact message string of each site. -/
inductive PyError
  | notInitialized
  | serviceNotRunning
  | timeout
  | invalidJson (raw : String)
  | pythonWhisper (msg : String)
  | initPingFailed
  | pythonNotFound
  | startFailed
deriving DecidableEq

/-- Exact message string carried by each `Error` thrown in the sidecar
engine source. -/
def PyError.message : PyError → String
  | .notInitialized => "Engine not initialized. Call initialize() first."
  | .serviceNotRunning => "Python service not running"
  | .timeout => "Python service timeout"
  | .invalidJson raw => "Invalid JSON response: " ++ raw
  | .pythonWhisper msg => "Python Whisper error: " ++ msg
  | .initPingFailed => "Python service ping test failed"
  | .pythonNotFound => "Python not found. Please install Python 3.7+"
  | .startFailed => "Failed to start Python Whisper service"

/-- Parsed JSON response of the Python sidecar (the fields the engine
reads: `text`, `language`, `language_probability`, `model`, `error`,
and `pong` for the ping action). -/
structure PyResponse where
  text : String
  language : Option String
  language_probability : Option ℚ
  model : String
  error : Option String
  pong : Bool
deriving DecidableEq

/-- One stdout line of the Python sidecar as seen by the response
handler in `sendRequest`: either it parses as JSON (`valid`, carrying
the parsed response) or it does not (`invalid`, carrying the raw
text). -/
inductive Response
  | valid (r : PyResponse)
  | invalid (raw : String)
deriving DecidableEq

/-- Behaviour of the backend for one request: `none` when no stdout
line ever arrives for it, `some (t, resp)` when the line `resp`
arrives `t` milliseconds after the request was written. -/
def Behavior : Type := Option (ℕ × Response)

/-- Source: `sendRequest` (sidecar variant lines 125-156), the
synchronous prefix.  The method first checks `this.pythonProcess` and
throws `Python service not running` when it is null; otherwise the
promise executor runs synchronously: it registers a one-shot stdout
listener, writes the request line to the child's stdin, and arms the
30-second timer — all before control returns to the event loop.  It
never reads or writes `requestQueue` or `isProcessing`.  This
definition records the effect of issuing a call on the engine state
and on the event trace: when the process is running, the write is
appended immediately; resolution of the promise happens only on a
later stdout-data or timer event (see `resolveCall`). -/
def issueSendRequest (s : PyState) (trace : List Event) (reqId : ℕ) :
    PyState × List Event :=
  match s.pythonProcess with
  | none => (s, trace)
  | some _ => (s, trace ++ [Event.write reqId])

/-- Resolution of an issued request's promise: appended to the trace
when the stdout data event (or the 30-second timeout) for that request
is processed by the event loop. -/
def resolveCall (trace : List Event) (reqId : ℕ) : List Event :=
  trace ++ [Event.resolve reqId]

/-- Source: `sendRequest` (sidecar variant lines 125-156), the
complete call, as a function of the backend behaviour for this
request.  When the process reference is null the method throws
`Python service not running`.  Otherwise: a stdout line arriving
before the 30-second timer fires either resolves the promise with the
parsed JSON or rejects with `Invalid JSON response: <raw>`; if no line
arrives before 30000 ms, the timer removes the listener and rejects
with `Python service timeout` (a line arriving later is discarded).
The engine object's fields are not mutated on any path. -/
def sendRequest (s : PyState) (reqId : ℕ) (beh : Behavior) :
    PyState × List Event × Except PyError PyResponse :=
  match s.pythonProcess with
  | none => (s, [], .error .serviceNotRunning)
  | some _ =>
      let outcome : Except PyError PyResponse :=
        match beh with
        | none => .error .timeout
        | some (t, resp) =>
            if t < 30000 then
              match resp with
              | .valid r => .ok r
              | .invalid raw => .error (.invalidJson raw)
            else .error .timeout
      (s, [Event.write reqId], outcome)

/-- Source: `startPythonService` (sidecar variant lines 56-120).
Probing for a Python executable and spawning it are external effects;
their outcome is passed in as `spawnResult` (the child pid on success,
or the thrown error — `pythonNotFound` or `startFailed`).  When a
process is already running the method returns at once. -/
def startPythonService (s : PyState) (spawnResult : Except PyError ℕ) :
    PyState × Except PyError Unit :=
  match s.pythonProcess with
  | some _ => (s, .ok ())
  | none =>
      match spawnResult with
      | .error e => (s, .error e)
      | .ok pid => ({ s with pythonProcess := some pid }, .ok ())

/-- Source: `initialize` (sidecar variant lines 25-51): stores the
model size, starts the Python service, sends a `ping` request, and
requires `pong` in the reply; on success sets `isInitialized = true`,
on any failure sets it to `false` and rethrows. -/
def initializeEngine (s : PyState) (modelSize : String)
    (spawnResult : Except PyError ℕ) (pingBeh : Behavior) :
    PyState × Except PyError Bool :=
  match startPythonService { s with modelSize := modelSize } spawnResult with
  | (s2, .error e) => ({ s2 with isInitialized := false }, .error e)
  | (s2, .ok _) =>
      match (sendRequest s2 0 pingBeh).2.2 with
      | .error e => ({ s2 with isInitialized := false }, .error e)
      | .ok res =>
          if res.pong then ({ s2 with isInitialized := true }, .ok true)
          else ({ s2 with isInitialized := false }, .error .initPingFailed)

/-- Result object resolved by the sidecar `transcribe` (lines
390-405); fields that only echo logging data are elided. -/
structure EngineResult where
  success : Bool
  text : String
  confidence : ℚ
  engine : String
  modelPath : String
  language : Option String
deriving DecidableEq

/-- Source: `transcribe` (sidecar variant lines 356-411).  The guard
at lines 357-359 throws
`Engine not initialized. Call initialize() first.`; otherwise the
audio is serialized into a request and `sendRequest` is awaited; a
response whose `error` field is set is rethrown as
`Python Whisper error: <error>`; otherwise the result object is
built (`confidence` falls back to 0.95 when `language_probability` is
absent or zero, mirroring the `||` default).  Returns the engine state
after the call, the trace of backend events it produced, and the
outcome. -/
def transcribe (s : PyState) (reqId : ℕ) (beh : Behavior) :
    PyState × List Event × Except PyError EngineResult :=
  if s.isInitialized = false then (s, [], .error .notInitialized)
  else
    match sendRequest s reqId beh with
    | (s1, evs, .error e) => (s1, evs, .error e)
    | (s1, evs, .ok res) =>
        match res.error with
        | some e => (s1, evs, .error (.pythonWhisper e))
        | none =>
            let confidence :=
              match res.language_probability with
              | some p => if p = 0 then 19/20 else p
              | none => 19/20
            (s1, evs, .ok
              { success := true, text := res.text, confidence := confidence,
                engine := "faster-whisper (" ++ s.executionMode ++ ")",
                modelPath := res.model ++ " (Python)",
                language := res.language })

/-- Status object returned by the effective `getStatus` of the sidecar
variant (the second of the two definitions in the class body, lines
532-540, which is the one JavaScript retains). -/
structure Status where
  initialized : Bool
  mode : String
  modelPath : String
  sessionActive : Bool
  pythonPid : Option ℕ
deriving DecidableEq

/-- Source: `getStatus` (sidecar variant lines 532-540). -/
def getStatus (s : PyState) : Status :=
  { initialized := s.isInitialized, mode := s.executionMode,
    modelPath := "faster-whisper " ++ s.modelSize,
    sessionActive := s.pythonProcess.isSome,
    pythonPid := s.pythonProcess }

/-- Source: `cleanup` (sidecar variant lines 545-573): when a process
is held it is sent SIGTERM (then SIGKILL after a grace window) and the
reference is nulled; `isInitialized` is set to `false`; every error is
caught and logged, never rethrown, so the call always completes. -/
def cleanup (s : PyState) : PyState :=
  { s with pythonProcess := none, isInitialized := false }

/-- Engine state with a running sidecar process and a completed
initialization, as reached after a successful `initialize`; used as
the concrete starting point of the concurrency and timeout
scenarios. -/
def runningState : PyState :=
  { pythonProcess := some 1234, isInitialized := true, modelSize := "tiny",
    executionMode := "python", requestQueue := [], isProcessing := false }

/-- Sidecar reply to the `ping` action: `{pong: true}`. -/
def pongResponse : PyResponse :=
  { text := "", language := none, language_probability := none,
    model := "", error := none, pong := true }

/-- Trace of backend events produced when two `sendRequest` calls are
issued concurrently from `runningState` — both issued in the same
event-loop turn, which is exactly what two overlapping `transcribe`
callers produce, since nothing in the class consults a queue or lock
before writing — and then the backend's first response line arrives,
resolving the first call. -/
def concurrentTrace : List Event :=
  resolveCall
    (issueSendRequest (issueSendRequest runningState [] 1).1
      (issueSendRequest runningState [] 1).2 2).2 1

end PyEngine

namespace MainHandler

/-- Source: the three canned fallback strings of the `processAudio`
IPC handler (`main-simple.js` lines 198-202). -/
def mockTranscriptions : List String :=
  ["Speech recognition system encountered an error but recovered successfully.",
   "Audio processing failed gracefully with fallback transcription.",
   "The application continues to work despite technical difficulties."]

/-- Result object returned to the renderer by the `processAudio` IPC
handler. -/
structure HandlerResult where
  success : Bool
  text : String
  processingTime : ℕ
  engine : String
  confidence : ℚ
  error : Option String
deriving DecidableEq

/-- Source: `ipcMain.handle('processAudio')` (`main-simple.js` lines
177-215).  Everything inside the `try` — lazily initializing the
engine and awaiting `transcribe` — either resolves to the engine's
result object or throws; that outcome is the `outcome` argument, with
`elapsedMs` the engine-reported processing time on success.  The
`catch` branch (lines 194-214) never rethrows: it picks one of the
three `mockTranscriptions` (uniformly via `Math.random()`; the choice
is the `pick` argument), and returns a result with `success: true`,
`processingTime: 1000`, `engine: 'Fallback Engine (CPU)'`,
`confidence: 0.8`, and `error` set to the thrown error's message.  The
handler is total: it resolves to a `HandlerResult` for every outcome
of the engine call. -/
def processAudio (outcome : Except String PyEngine.EngineResult)
    (elapsedMs : ℕ) (pick : Fin mockTranscriptions.length) : HandlerResult :=
  match outcome with
  | .ok r =>
      { success := r.success, text := r.text, processingTime := elapsedMs,
        engine := r.engine, confidence := r.confidence, error := none }
  | .error msg =>
      { success := true, text := mockTranscriptions.get pick,
        processingTime := 1000, engine := "Fallback Engine (CPU)",
        confidence := 4/5, error := some msg }

end MainHandler

namespace RemoteEngine

/-- Persisted configuration of the remote engine: the JSON object
written to `endpoint-config.json` by `saveConfig`
(`whisper-remote.js` lines 40-53). -/
structure EndpointConfig where
  endpointUrl : Option String
  apiKey : Option String
  selectedModel : String
  language : Option String
deriving DecidableEq

/-- State of the `WhisperRemoteEngine` object (constructor,
`whisper-remote.js` lines 11-22) together with the contents of the
configuration file on disk (`none` when the file does not exist).
Disk writes are modelled as succeeding (the `saveConfig` `catch` only
logs). -/
structure RemoteState where
  endpointUrl : Option String
  apiKey : Option String
  selectedModel : String
  language : Option String
  isConfigured : Bool
  disk : Option EndpointConfig
deriving DecidableEq

/-- The in-memory configuration, as `saveConfig` would serialize it. -/
def configOf (s : RemoteState) : EndpointConfig :=
  { endpointUrl := s.endpointUrl, apiKey := s.apiKey,
    selectedModel := s.selectedModel, language := s.language }

/-- Source: `saveConfig` (`whisper-remote.js` lines 40-53): writes the
four configuration fields to `endpoint-config.json`. -/
def saveConfig (s : RemoteState) : RemoteState :=
  { s with disk := some (configOf s) }

/-- Source: `setModel` (`whisper-remote.js` lines 226-229): stores the
model and rewrites the file. -/
def setModel (s : RemoteState) (model : String) : RemoteState :=
  saveConfig { s with selectedModel := model }

/-- Source: `setLanguage` (`whisper-remote.js` lines 231-234): stores
the language and rewrites the file. -/
def setLanguage (s : RemoteState) (language : Option String) : RemoteState :=
  saveConfig { s with language := language }

/-- Result object of `testConnection` (`whisper-remote.js` lines
70-106): `success` is always present and boolean; `error` carries the
failure message; `device`, `models`, `modelCount` appear on the
success paths. -/
structure TestConnectionResult where
  success : Bool
  error : Option String
  device : Option String
  models : Option (List String)
  modelCount : Option ℕ
deriving DecidableEq

/-- Environment behaviour for one `testConnection` call: the health
probe either throws (connection refused and the like; `Except.error`
carries the thrown message) or returns a response whose `ok` flag is
the `Bool`; the optional models-list fetch either throws at the fetch
or JSON-parse step, or yields the parsed `data` field (`none` when the
JSON has no usable `data` array, in which case the code falls back to
`[]`). -/
structure ConnEnv where
  healthFetch : Except String Bool
  modelsFetch : Except String (Option (List String))

/-- Truthiness of `this.endpointUrl` in the guard
`if (!this.endpointUrl)`: both `null` and the empty string are falsy. -/
def urlMissing : Option String → Bool
  | none => true
  | some u => u = ""

/-- Source: `testConnection` (`whisper-remote.js` lines 70-106).  With
no endpoint configured it returns `{success: false, error: 'No
endpoint configured'}` without touching the network.  Otherwise the
health probe is issued inside a `try`: a thrown fetch error is caught
and returned as `{success: false, error: <message>}`; a non-ok
response yields `{success: false, error: 'Health check failed'}`; an
ok response leads to the optional models fetch, whose own failure is
caught by the inner `try` and still yields `{success: true, device:
'cloud'}`.  Every path returns a result object; nothing escapes. -/
def testConnection (s : RemoteState) (env : ConnEnv) : TestConnectionResult :=
  if urlMissing s.endpointUrl then
    { success := false, error := some "No endpoint configured",
      device := none, models := none, modelCount := none }
  else
    match env.healthFetch with
    | .error msg =>
        { success := false, error := some msg,
          device := none, models := none, modelCount := none }
    | .ok respOk =>
        if respOk then
          match env.modelsFetch with
          | .error _ =>
              { success := true, error := none, device := some "cloud",
                models := none, modelCount := none }
          | .ok data =>
              let availableModels := data.getD []
              { success := true, error := none, device := some "cloud",
                models := some availableModels,
                modelCount := some availableModels.length }
        else
          { success := false, error := some "Health check failed",
            device := none, models := none, modelCount := none }

/-- Source: `configure` (`whisper-remote.js` lines 55-68): assigns
`endpointUrl` and `apiKey` unconditionally, assigns `selectedModel`
only when the `model` argument is truthy, then awaits
`testConnection`; only when that reports success does it set
`isConfigured` and call `saveConfig`.  Returns the new state and the
health result.  `configureAssign` is the first step in isolation: the
three field assignments at the top of `configure` (`selectedModel`
only changes when the `model` argument is truthy). -/
def configureAssign (s : RemoteState) (endpointUrl : String)
    (apiKey : Option String) (model : Option String) : RemoteState :=
  { s with endpointUrl := some endpointUrl, apiKey := apiKey,
           selectedModel :=
             match model with
             | some m => if m = "" then s.selectedModel else m
             | none => s.selectedModel }

def configure (s : RemoteState) (endpointUrl : String)
    (apiKey : Option String) (model : Option String) (env : ConnEnv) :
    RemoteState × TestConnectionResult :=
  let s1 := configureAssign s endpointUrl apiKey model
  let health := testConnection s1 env
  if health.success then (saveConfig { s1 with isConfigured := true }, health)
  else (s1, health)

/-- Source: the static name-to-code table in `transcribe`
(`whisper-remote.js` lines 171-194). -/
def languageMap : List (String × String) :=
  [("english", "en"), ("spanish", "es"), ("french", "fr"),
   ("german", "de"), ("chinese", "zh"), ("japanese", "ja"),
   ("italian", "it"), ("portuguese", "pt"), ("russian", "ru"),
   ("korean", "ko"), ("dutch", "nl"), ("polish", "pl"),
   ("arabic", "ar"), ("hindi", "hi"), ("turkish", "tr"),
   ("vietnamese", "vi"), ("thai", "th"), ("indonesian", "id"),
   ("swedish", "sv"), ("danish", "da"), ("norwegian", "no"),
   ("finnish", "fi")]

/-- Characterwise ASCII lowercasing, as JS `toLowerCase()` performs on
the ASCII language names involved (identical to `String.toLower` of
the standard library, spelled out over the character list so that it
evaluates by kernel reduction). -/
def toLowerAscii (s : String) : String :=
  String.mk (s.data.map Char.toLower)

/-- Source: the normalization step of `transcribe`
(`whisper-remote.js` lines 196-200): the detected language signal is
lowercased and looked up in `languageMap`; on a hit the canonical
two-letter code replaces it, otherwise the original value is kept
unchanged. -/
def normalizeDetectedLanguage (detected : String) : String :=
  let langLower := toLowerAscii detected
  match languageMap.lookup langLower with
  | some code => code
  | none => detected

/-- Remote-engine state whose in-memory configuration agrees with the
file on disk (endpoint `http://old`), used as the starting point of
the `configure` counterexample. -/
def oldState : RemoteState :=
  { endpointUrl := some "http://old", apiKey := none, selectedModel := "m",
    language := none, isConfigured := true,
    disk := some { endpointUrl := some "http://old", apiKey := none,
                   selectedModel := "m", language := none } }

/-- Environment in which the health probe of `testConnection` throws
(connection refused) and the models fetch is irrelevant. -/
def refusedEnv : ConnEnv :=
  { healthFetch := .error "connection refused", modelsFetch := .ok none }

end RemoteEngine

/-! Theorems settling the specification claims. -/

/-- C6: the remote-variant language normalizer is idempotent on the
canonical code `es` and case-insensitive on the full name: `es` is
returned unchanged, and `Spanish`, `SPANISH`, and `es` all normalize
to the same code `es`. -/
theorem C6_language_normalization :
    RemoteEngine.normalizeDetectedLanguage "es" = "es"
    ∧ RemoteEngine.normalizeDetectedLanguage "Spanish" = "es"
    ∧ RemoteEngine.normalizeDetectedLanguage "SPANISH" = "es" :=
  ⟨by decide, by decide, by decide⟩

/-- C9: `cleanup` is idempotent and unconditionally safe for both
engine variants: it is a total function (the source `catch` swallows
every error), running it twice equals running it once, running it on a
never-initialized engine (the freshly constructed state) is fine, and
afterwards `getStatus().initialized` is `false` and the backend
session/process reference is `null`. -/
theorem C9_cleanup_idempotent :
    (∀ s : LocalEngine.EngineState,
        LocalEngine.cleanup (LocalEngine.cleanup s) = LocalEngine.cleanup s
        ∧ (LocalEngine.getStatus (LocalEngine.cleanup s)).initialized = false
        ∧ (LocalEngine.cleanup s).session = none)
    ∧ (LocalEngine.getStatus (LocalEngine.cleanup LocalEngine.mkEngine)).initialized
        = false
    ∧ (∀ s : PyEngine.PyState,
        PyEngine.cleanup (PyEngine.cleanup s) = PyEngine.cleanup s
        ∧ (PyEngine.getStatus (PyEngine.cleanup s)).initialized = false
        ∧ (PyEngine.cleanup s).pythonProcess = none)
    ∧ (PyEngine.getStatus (PyEngine.cleanup PyEngine.mkEngine)).initialized
        = false :=
  ⟨fun _ => ⟨rfl, rfl, rfl⟩, rfl, fun _ => ⟨rfl, rfl, rfl⟩, rfl⟩

/-- C2: for every failure of the underlying engine call (abstracted as
the thrown message) and every fallback pick, the `processAudio` IPC
handler resolves — it is a total function into `HandlerResult`, never
a rejection — and the result carries the underlying error message in
`error` and one of the non-empty canned fallback strings in `text`. -/
theorem C2_fallback_never_throws :
    ∀ (msg : String) (elapsed : ℕ)
      (pick : Fin MainHandler.mockTranscriptions.length),
      (MainHandler.processAudio (.error msg) elapsed pick).error = some msg
      ∧ (MainHandler.processAudio (.error msg) elapsed pick).text
          = MainHandler.mockTranscriptions.get pick
      ∧ (MainHandler.processAudio (.error msg) elapsed pick).text ≠ ""
      ∧ (MainHandler.processAudio (.error msg) elapsed pick).success = true := by
  intro msg elapsed pick
  refine ⟨rfl, rfl, ?_, rfl⟩
  exact (by decide :
    ∀ i : Fin MainHandler.mockTranscriptions.length,
      MainHandler.mockTranscriptions.get i ≠ "") pick

/-- C5 counterexample: the claim that the caller's buffer is unchanged
after `transcribe`/`preprocessAudio` fails on a `Float32Array` input
with peak amplitude other than 1: for the one-sample buffer `[2]` the
in-place normalization rewrites the caller's buffer to `[1]`. -/
theorem C5_counterexample :
    LocalEngine.preprocessCallerBuffer true [(2 : ℚ)] ≠ [(2 : ℚ)]
    ∧ LocalEngine.preprocessCallerBuffer true [(2 : ℚ)] = [1] := by
  constructor <;>
    simp [LocalEngine.preprocessCallerBuffer, LocalEngine.normalizeAudio,
      LocalEngine.maxAbsVal]

/-- C5 (amended): a caller-supplied plain `Array` is never written to
(the engine copies it into a fresh `Float32Array`), but a
caller-supplied `Float32Array` is normalized in place: after the call
its contents are the amplitude-normalized samples — each sample
divided by the peak absolute value when that peak is positive, and
unchanged otherwise. -/
theorem C5_amended (xs : List ℚ) :
    LocalEngine.preprocessCallerBuffer false xs = xs
    ∧ LocalEngine.preprocessCallerBuffer true xs = LocalEngine.normalizeAudio xs
    ∧ (0 < LocalEngine.maxAbsVal xs →
        LocalEngine.preprocessCallerBuffer true xs
          = xs.map (fun x => x / LocalEngine.maxAbsVal xs))
    ∧ (¬ 0 < LocalEngine.maxAbsVal xs →
        LocalEngine.preprocessCallerBuffer true xs = xs) := by
  refine ⟨rfl, rfl, fun h => ?_, fun h => ?_⟩ <;>
    simp [LocalEngine.preprocessCallerBuffer, LocalEngine.normalizeAudio, h]

/-- Witness for `C5_amended` at the concrete buffer `[2]`. -/
theorem C5_amended_witness :
    (0 : ℚ) < LocalEngine.maxAbsVal [(2 : ℚ)]
    ∧ LocalEngine.preprocessCallerBuffer true [(2 : ℚ)]
        = [(2 : ℚ)].map (fun x => x / LocalEngine.maxAbsVal [(2 : ℚ)]) :=
  ⟨by norm_num [LocalEngine.maxAbsVal],
   (C5_amended [(2 : ℚ)]).2.2.1 (by norm_num [LocalEngine.maxAbsVal])⟩

/-- Helper: normalization preserves the sample count. -/
theorem LocalEngine.normalizeAudio_length (xs : List ℚ) :
    (LocalEngine.normalizeAudio xs).length = xs.length := by
  unfold LocalEngine.normalizeAudio
  by_cases h : 0 < LocalEngine.maxAbsVal xs <;> simp [h]

theorem getD_append_left (l l' : List ℚ) (n : ℕ) (h : n < l.length) :
    (l ++ l').getD n 0 = l.getD n 0 :=
  List.getD_append l l' 0 n h

/-- Helper: `getD` through `take`, within the taken prefix. -/
theorem getD_take_left (l : List ℚ) (i n : ℕ) (h : i < n) :
    (l.take n).getD i 0 = l.getD i 0 := by
  rw [List.getD_eq_getD_get?, List.getD_eq_getD_get?, List.get?_take h]

/-- C4: an input of 8000 samples is zero-padded at the tail to the
minimum window length of 16000 samples, and an input of 1000000
samples is truncated to the maximum window length of 480000 samples;
in both cases the non-padded prefix of the output is exactly the
amplitude-normalized input, element for element. -/
theorem C4_preprocess_pad_truncate (xs ys : List ℚ) (h8 : xs.length = 8000)
    (h1M : ys.length = 1000000) :
    LocalEngine.preprocessAudio xs
        = LocalEngine.normalizeAudio xs ++ List.replicate 8000 0
    ∧ (LocalEngine.preprocessAudio xs).length = 16000
    ∧ (∀ i, i < 8000 →
        (LocalEngine.preprocessAudio xs).getD i 0
          = (LocalEngine.normalizeAudio xs).getD i 0)
    ∧ LocalEngine.preprocessAudio ys
        = (LocalEngine.normalizeAudio ys).take 480000
    ∧ (LocalEngine.preprocessAudio ys).length = 480000
    ∧ (∀ i, i < 480000 →
        (LocalEngine.preprocessAudio ys).getD i 0
          = (LocalEngine.normalizeAudio ys).getD i 0) := by
  have hx : (LocalEngine.normalizeAudio xs).length = 8000 := by
    rw [LocalEngine.normalizeAudio_length, h8]
  have hy : (LocalEngine.normalizeAudio ys).length = 1000000 := by
    rw [LocalEngine.normalizeAudio_length, h1M]
  have e1 : LocalEngine.preprocessAudio xs
      = LocalEngine.normalizeAudio xs ++ List.replicate 8000 0 := by
    simp only [LocalEngine.preprocessAudio, hx]
    norm_num
  have e2 : LocalEngine.preprocessAudio ys
      = (LocalEngine.normalizeAudio ys).take 480000 := by
    simp only [LocalEngine.preprocessAudio, hy]
    norm_num
  refine ⟨e1, ?_, ?_, e2, ?_, ?_⟩
  · rw [e1, List.length_append, hx, List.length_replicate]
  · intro i hi
    rw [e1, getD_append_left]
    omega
  · rw [e2, List.length_take, hy]; omega
  · intro i hi
    rw [e2, getD_take_left _ _ _ hi]

/-- Witness for `C4_preprocess_pad_truncate` at the concrete constant
inputs of 8000 and 1000000 samples. -/
theorem C4_preprocess_witness :
    LocalEngine.preprocessAudio (List.replicate 8000 (1 : ℚ))
        = LocalEngine.normalizeAudio (List.replicate 8000 (1 : ℚ))
            ++ List.replicate 8000 0
    ∧ (LocalEngine.preprocessAudio (List.replicate 8000 (1 : ℚ))).length = 16000
    ∧ (∀ i, i < 8000 →
        (LocalEngine.preprocessAudio (List.replicate 8000 (1 : ℚ))).getD i 0
          = (LocalEngine.normalizeAudio (List.replicate 8000 (1 : ℚ))).getD i 0)
    ∧ LocalEngine.preprocessAudio (List.replicate 1000000 (1 : ℚ))
        = (LocalEngine.normalizeAudio (List.replicate 1000000 (1 : ℚ))).take 480000
    ∧ (LocalEngine.preprocessAudio (List.replicate 1000000 (1 : ℚ))).length
        = 480000
    ∧ (∀ i, i < 480000 →
        (LocalEngine.preprocessAudio (List.replicate 1000000 (1 : ℚ))).getD i 0
          = (LocalEngine.normalizeAudio (List.replicate 1000000 (1 : ℚ))).getD i 0) :=
  C4_preprocess_pad_truncate (List.replicate 8000 (1 : ℚ))
    (List.replicate 1000000 (1 : ℚ)) (List.length_replicate 8000 1)
    (List.length_replicate 1000000 1)

/-- C10: for every engine state and every behaviour of the remote
endpoint, `testConnection` resolves to a result with a boolean
`success` field — `success = false` together with an error message on
every failure path (no endpoint configured, health fetch thrown,
non-ok health response), `success = true` with no error otherwise —
and never throws (it is a total function); in particular a failure of
the optional models-list fetch after an ok health probe still yields
`success = true`. -/
theorem C10_testConnection_never_throws :
    (∀ (s : RemoteEngine.RemoteState) (env : RemoteEngine.ConnEnv),
        ((RemoteEngine.testConnection s env).success = true
            ∧ (RemoteEngine.testConnection s env).error = none)
        ∨ ((RemoteEngine.testConnection s env).success = false
            ∧ (RemoteEngine.testConnection s env).error.isSome = true))
    ∧ (∀ (s : RemoteEngine.RemoteState) (env : RemoteEngine.ConnEnv) (e : String),
        RemoteEngine.urlMissing s.endpointUrl = false →
        env.healthFetch = .ok true →
        env.modelsFetch = .error e →
        (RemoteEngine.testConnection s env).success = true
        ∧ (RemoteEngine.testConnection s env).error = none) := by
  constructor
  · intro s env
    unfold RemoteEngine.testConnection
    rcases hu : RemoteEngine.urlMissing s.endpointUrl with _ | _
    · rcases hh : env.healthFetch with msg | ok
      · simp
      · rcases ok with _ | _
        · simp
        · rcases hm : env.modelsFetch with e | data <;> simp
    · simp
  · intro s env e hu hh hm
    unfold RemoteEngine.testConnection
    rw [hu, hh, hm]
    simp

/-- Witness for `C10_testConnection_never_throws`: a configured
endpoint whose health probe succeeds but whose models fetch throws
still reports success. -/
theorem C10_testConnection_witness :
    (RemoteEngine.testConnection
        { endpointUrl := some "http://host:8000/v1/audio/transcriptions",
          apiKey := none, selectedModel := "Systran/faster-whisper-base",
          language := none, isConfigured := true, disk := none }
        { healthFetch := .ok true,
          modelsFetch := .error "invalid json" }).success = true
    ∧ (RemoteEngine.testConnection
        { endpointUrl := some "http://host:8000/v1/audio/transcriptions",
          apiKey := none, selectedModel := "Systran/faster-whisper-base",
          language := none, isConfigured := true, disk := none }
        { healthFetch := .ok true,
          modelsFetch := .error "invalid json" }).error = none :=
  C10_testConnection_never_throws.2
    { endpointUrl := some "http://host:8000/v1/audio/transcriptions",
      apiKey := none, selectedModel := "Systran/faster-whisper-base",
      language := none, isConfigured := true, disk := none }
    { healthFetch := .ok true, modelsFetch := .error "invalid json" }
    "invalid json" (by decide) rfl rfl

/-- C7 counterexample: `configure` is a configuration mutation that
can leave memory and disk disagreeing.  Starting from a state whose
file matches memory, calling `configure` with a new endpoint whose
health probe fails (connection refused) changes the in-memory
`endpointUrl` to the new value but does not rewrite the file, so the
persisted configuration no longer reflects the in-memory one. -/
theorem C7_counterexample :
    (RemoteEngine.configure RemoteEngine.oldState "http://new" none none
        RemoteEngine.refusedEnv).1.endpointUrl = some "http://new"
    ∧ (RemoteEngine.configure RemoteEngine.oldState "http://new" none none
        RemoteEngine.refusedEnv).1.disk
        ≠ some (RemoteEngine.configOf
            (RemoteEngine.configure RemoteEngine.oldState "http://new" none none
              RemoteEngine.refusedEnv).1) := by
  decide

/-- C7 (amended): `setModel` and `setLanguage` always rewrite the
configuration file so that it reflects the new in-memory values, and
`configure` does so exactly when its connection test succeeds; when
the test fails, the in-memory endpoint, key, and model have changed
but the file is left as it was. -/
theorem C7_amended :
    (∀ (s : RemoteEngine.RemoteState) (m : String),
        (RemoteEngine.setModel s m).disk
          = some (RemoteEngine.configOf (RemoteEngine.setModel s m)))
    ∧ (∀ (s : RemoteEngine.RemoteState) (l : Option String),
        (RemoteEngine.setLanguage s l).disk
          = some (RemoteEngine.configOf (RemoteEngine.setLanguage s l)))
    ∧ (∀ (s : RemoteEngine.RemoteState) (url : String) (key : Option String)
         (model : Option String) (env : RemoteEngine.ConnEnv),
        (RemoteEngine.configure s url key model env).2.success = true →
        (RemoteEngine.configure s url key model env).1.disk
          = some (RemoteEngine.configOf
              (RemoteEngine.configure s url key model env).1))
    ∧ (∀ (s : RemoteEngine.RemoteState) (url : String) (key : Option String)
         (model : Option String) (env : RemoteEngine.ConnEnv),
        (RemoteEngine.configure s url key model env).2.success = false →
        (RemoteEngine.configure s url key model env).1.disk = s.disk) := by
  refine ⟨fun s m => rfl, fun s l => rfl, ?_, ?_⟩
  · intro s url key model env h
    unfold RemoteEngine.configure at h ⊢
    by_cases hh : (RemoteEngine.testConnection
        (RemoteEngine.configureAssign s url key model) env).success = true <;>
      simp_all [RemoteEngine.saveConfig, RemoteEngine.configOf]
  · intro s url key model env h
    unfold RemoteEngine.configure at h ⊢
    by_cases hh : (RemoteEngine.testConnection
        (RemoteEngine.configureAssign s url key model) env).success = true <;>
      simp_all [RemoteEngine.configureAssign]

/-- Witness for `C7_amended`: a `configure` call whose health probe
succeeds persists the new configuration to disk. -/
theorem C7_amended_witness :
    (RemoteEngine.configure RemoteEngine.oldState "http://new" none none
        { healthFetch := .ok true, modelsFetch := .ok none }).2.success = true
    ∧ (RemoteEngine.configure RemoteEngine.oldState "http://new" none none
        { healthFetch := .ok true, modelsFetch := .ok none }).1.disk
        = some (RemoteEngine.configOf
            (RemoteEngine.configure RemoteEngine.oldState "http://new" none none
              { healthFetch := .ok true, modelsFetch := .ok none }).1) :=
  ⟨by decide,
   C7_amended.2.2.1 RemoteEngine.oldState "http://new" none none
     { healthFetch := .ok true, modelsFetch := .ok none } (by decide)⟩

/-- Helper: `sendRequest` never rejects with the not-initialized
error; its rejections are `serviceNotRunning`, `timeout`, or
`invalidJson`. -/
theorem sendRequest_ne_notInit (s : PyEngine.PyState) (reqId : ℕ)
    (beh : PyEngine.Behavior) :
    (PyEngine.sendRequest s reqId beh).2.2 ≠ .error .notInitialized := by
  unfold PyEngine.sendRequest
  rcases s.pythonProcess with _ | pid
  · simp
  · rcases beh with _ | ⟨t, resp⟩
    · simp
    · by_cases ht : t < 30000
      · rcases resp with r | raw <;> simp [ht]
      · simp [ht]

/-- Helper: on an initialized engine, `transcribe` never fails with
the not-initialized error. -/
theorem transcribe_ne_notInit (s : PyEngine.PyState) (reqId : ℕ)
    (beh : PyEngine.Behavior) (h : s.isInitialized = true) :
    (PyEngine.transcribe s reqId beh).2.2 ≠ .error .notInitialized := by
  unfold PyEngine.transcribe
  simp only [h]
  split
  · simp_all
  · split
    · rename_i s1 evs e heq
      have := sendRequest_ne_notInit s reqId beh
      rw [heq] at this
      simpa using this
    · split <;> simp

/-- Helper: a sidecar `initialize` that returns `true` leaves
`isInitialized = true`. -/
theorem initializeEngine_ok_isInitialized (s : PyEngine.PyState) (ms : String)
    (spawn : Except PyEngine.PyError ℕ) (ping : PyEngine.Behavior)
    (h : (PyEngine.initializeEngine s ms spawn ping).2 = .ok true) :
    (PyEngine.initializeEngine s ms spawn ping).1.isInitialized = true := by
  unfold PyEngine.initializeEngine at h ⊢
  split at h <;> rename_i s2 heq
  · simp_all
  · revert h
    split <;> intro h
    · simp_all
    · split <;> simp_all

/-- C8: in both engine variants, every `transcribe` call on an engine
whose `isInitialized` flag is false fails with the not-initialized
error and writes nothing to the backend (the sidecar event trace is
empty); conversely, after an `initialize` call that succeeded,
`transcribe` never fails with that error. -/
theorem C8_not_initialized_guard :
    (∀ (s : PyEngine.PyState) (reqId : ℕ) (beh : PyEngine.Behavior),
        s.isInitialized = false →
        PyEngine.transcribe s reqId beh = (s, [], .error .notInitialized))
    ∧ (∀ (s : PyEngine.PyState) (ms : String)
         (spawn : Except PyEngine.PyError ℕ) (ping : PyEngine.Behavior)
         (reqId : ℕ) (beh : PyEngine.Behavior),
        (PyEngine.initializeEngine s ms spawn ping).2 = .ok true →
        (PyEngine.transcribe (PyEngine.initializeEngine s ms spawn ping).1
            reqId beh).2.2 ≠ .error .notInitialized)
    ∧ (∀ (s : LocalEngine.EngineState) (audio : List ℚ) (t : String) (c : ℚ),
        s.isInitialized = false →
        LocalEngine.transcribe s audio t c
          = .error "Engine not initialized. Call initialize() first.")
    ∧ (∀ (s : LocalEngine.EngineState) (setup : Except String (String × ℕ))
         (providers : List String) (audio : List ℚ) (t : String) (c : ℚ),
        (LocalEngine.initializeEngine s setup providers).2 = .ok true →
        LocalEngine.transcribe
            (LocalEngine.initializeEngine s setup providers).1 audio t c
          ≠ .error "Engine not initialized. Call initialize() first.") := by
  refine ⟨?_, ?_, ?_, ?_⟩
  · intro s reqId beh h
    simp [PyEngine.transcribe, h]
  · intro s ms spawn ping reqId beh h
    exact transcribe_ne_notInit _ reqId beh
      (initializeEngine_ok_isInitialized s ms spawn ping h)
  · intro s audio t c h
    simp [LocalEngine.transcribe, h]
  · intro s setup providers audio t c h
    rcases setup with e | ⟨mp, sid⟩
    · simp [LocalEngine.initializeEngine] at h
    · simp [LocalEngine.initializeEngine, LocalEngine.transcribe]

/-- Witness for `C8_not_initialized_guard` on the freshly constructed
engines and on engines initialized with concrete successful setups. -/
theorem C8_not_initialized_guard_witness :
    PyEngine.transcribe PyEngine.mkEngine 0 none
        = (PyEngine.mkEngine, [], .error .notInitialized)
    ∧ (PyEngine.transcribe
        (PyEngine.initializeEngine PyEngine.mkEngine "tiny" (.ok 1234)
            (some (5, .valid PyEngine.pongResponse))).1 1 none).2.2
        ≠ .error .notInitialized
    ∧ LocalEngine.transcribe LocalEngine.mkEngine [] "" 0
        = .error "Engine not initialized. Call initialize() first."
    ∧ LocalEngine.transcribe
        (LocalEngine.initializeEngine LocalEngine.mkEngine
            (.ok ("whisper-tiny.onnx", 7)) ["CPUExecutionProvider"]).1 [] "" 0
        ≠ .error "Engine not initialized. Call initialize() first." :=
  ⟨C8_not_initialized_guard.1 PyEngine.mkEngine 0 none rfl,
   C8_not_initialized_guard.2.1 PyEngine.mkEngine "tiny" (.ok 1234)
     (some (5, .valid PyEngine.pongResponse)) 1 none rfl,
   C8_not_initialized_guard.2.2.1 LocalEngine.mkEngine [] "" 0 rfl,
   C8_not_initialized_guard.2.2.2 LocalEngine.mkEngine
     (.ok ("whisper-tiny.onnx", 7)) ["CPUExecutionProvider"] [] "" 0 rfl⟩

/-- C1 counterexample: the claimed FIFO serialization does not exist
in the sidecar engine.  `requestQueue` and `isProcessing` are
initialized but never consulted, and each `sendRequest` writes its
request to the backend synchronously when it is issued.  In the
concrete admissible scenario `concurrentTrace` — two `transcribe`
calls issue their requests in the same event-loop turn, then the
first response arrives — the second call's request is written (trace
position 1) strictly before the first call's response is resolved
(trace position 2), so the second request was in flight before the
first call completed. -/
theorem C1_counterexample :
    PyEngine.concurrentTrace
        = [PyEngine.Event.write 1, PyEngine.Event.write 2,
           PyEngine.Event.resolve 1]
    ∧ PyEngine.concurrentTrace.indexOf (PyEngine.Event.write 2)
        < PyEngine.concurrentTrace.indexOf (PyEngine.Event.resolve 1) := by
  constructor
  · rfl
  · decide

/-- C1 (amended): the sidecar engine does not serialize concurrent
`transcribe` calls.  From any state with a running backend process, a
call's request is written to the backend immediately when the call is
issued, regardless of any outstanding request, and the engine state —
including the unused `requestQueue` and `isProcessing` fields — is
unchanged; hence two calls issued concurrently have both requests
written before either call's response resolves. -/
theorem C1_amended (s : PyEngine.PyState) (pid : ℕ)
    (h : s.pythonProcess = some pid) (id1 id2 : ℕ) :
    PyEngine.issueSendRequest s [] id1 = (s, [PyEngine.Event.write id1])
    ∧ PyEngine.issueSendRequest (PyEngine.issueSendRequest s [] id1).1
          (PyEngine.issueSendRequest s [] id1).2 id2
        = (s, [PyEngine.Event.write id1, PyEngine.Event.write id2]) := by
  constructor <;> simp [PyEngine.issueSendRequest, h]

/-- Witness for `C1_amended` at the concrete running engine state. -/
theorem C1_amended_witness :
    PyEngine.issueSendRequest PyEngine.runningState [] 1
        = (PyEngine.runningState, [PyEngine.Event.write 1])
    ∧ PyEngine.issueSendRequest
          (PyEngine.issueSendRequest PyEngine.runningState [] 1).1
          (PyEngine.issueSendRequest PyEngine.runningState [] 1).2 2
        = (PyEngine.runningState,
           [PyEngine.Event.write 1, PyEngine.Event.write 2]) :=
  C1_amended PyEngine.runningState 1234 rfl 1 2

/-- C3 counterexample: when the sidecar never answers, the caller does
not receive `error = "timeout"`.  The 30-second timer rejects with the
message `Python service timeout`, and that is the string the
`processAudio` fallback stores in the result's `error` field, which
differs from the literal `"timeout"` the claim states. -/
theorem C3_counterexample :
    (MainHandler.processAudio
        ((PyEngine.transcribe PyEngine.runningState 1 none).2.2.mapError
          PyEngine.PyError.message) 0 ⟨0, by decide⟩).error
        = some "Python service timeout"
    ∧ (MainHandler.processAudio
        ((PyEngine.transcribe PyEngine.runningState 1 none).2.2.mapError
          PyEngine.PyError.message) 0 ⟨0, by decide⟩).error
        ≠ some "timeout" := by
  constructor
  · rfl
  · decide

/-- C3 (amended): on an initialized engine with a running backend, a
request whose response does not arrive within 30 seconds stops
waiting and fails with the timeout rejection, whose message is
`Python service timeout` (not the literal `timeout`); through the
`processAudio` fallback the caller receives a well-formed result
carrying that message in `error` with non-empty fallback text; the
engine state is unchanged by the timed-out call, and a subsequent
request whose response arrives within 30 seconds succeeds. -/
theorem C3_amended (s : PyEngine.PyState) (pid : ℕ)
    (hp : s.pythonProcess = some pid) (hi : s.isInitialized = true)
    (reqId : ℕ) (beh : PyEngine.Behavior)
    (hbeh : ∀ t r, beh = some (t, r) → 30000 ≤ t)
    (elapsed : ℕ) (pick : Fin MainHandler.mockTranscriptions.length) :
    PyEngine.transcribe s reqId beh
        = (s, [PyEngine.Event.write reqId], .error .timeout)
    ∧ PyEngine.PyError.timeout.message = "Python service timeout"
    ∧ (MainHandler.processAudio
          ((PyEngine.transcribe s reqId beh).2.2.mapError
            PyEngine.PyError.message) elapsed pick).error
        = some "Python service timeout"
    ∧ (MainHandler.processAudio
          ((PyEngine.transcribe s reqId beh).2.2.mapError
            PyEngine.PyError.message) elapsed pick).text ≠ ""
    ∧ (∀ (id2 t2 : ℕ) (r : PyEngine.PyResponse), t2 < 30000 →
        r.error = none →
        ∃ res, (PyEngine.transcribe s id2 (some (t2, .valid r))).2.2 = .ok res
          ∧ res.text = r.text) := by
  have htr : PyEngine.transcribe s reqId beh
      = (s, [PyEngine.Event.write reqId], .error .timeout) := by
    rcases beh with _ | ⟨t, r⟩
    · simp [PyEngine.transcribe, PyEngine.sendRequest, hi, hp]
    · have ht : ¬ t < 30000 := by
        have := hbeh t r rfl
        omega
      simp [PyEngine.transcribe, PyEngine.sendRequest, hi, hp, ht]
  refine ⟨htr, rfl, ?_, ?_, ?_⟩
  · rw [htr]
    rfl
  · rw [htr]
    exact (by decide :
      ∀ i : Fin MainHandler.mockTranscriptions.length,
        MainHandler.mockTranscriptions.get i ≠ "") pick
  · intro id2 t2 r ht hr
    have hok : (PyEngine.transcribe s id2 (some (t2, .valid r))).2.2
        = .ok { success := true, text := r.text,
                confidence :=
                  match r.language_probability with
                  | some p => if p = 0 then 19/20 else p
                  | none => 19/20,
                engine := "faster-whisper (" ++ s.executionMode ++ ")",
                modelPath := r.model ++ " (Python)",
                language := r.language } := by
      simp [PyEngine.transcribe, PyEngine.sendRequest, hi, hp, ht, hr]
    exact ⟨_, hok, rfl⟩

/-- Witness for `C3_amended` at the concrete running engine and the
never-answering backend behaviour. -/
theorem C3_amended_witness :
    PyEngine.transcribe PyEngine.runningState 7 none
        = (PyEngine.runningState, [PyEngine.Event.write 7], .error .timeout)
    ∧ (MainHandler.processAudio
          ((PyEngine.transcribe PyEngine.runningState 7 none).2.2.mapError
            PyEngine.PyError.message) 0 ⟨0, by decide⟩).error
        = some "Python service timeout" :=
  ⟨(C3_amended PyEngine.runningState 1234 rfl rfl 7 none
      (fun t r h => nomatch h) 0 ⟨0, by decide⟩).1,
   (C3_amended PyEngine.runningState 1234 rfl rfl 7 none
      (fun t r h => nomatch h) 0 ⟨0, by decide⟩).2.2.1⟩
